import Mathlib

/-!
Shallow embedding of `scripts/fetch_risk_barometer.py` and
`scripts/fetch_market_data.py`.

Modelling conventions:
* Prices and derived quantities are rationals (`ℚ`); Python float arithmetic
  on these closed-form expressions is modelled exactly, and every claim below
  only depends on comparisons that are robust to float rounding.
* Python exceptions are modelled with `Except String`: a raised exception is
  `Except.error msg`; the per-signal `try/except` boundary is the `trySignal`
  wrapper, the per-asset-class boundary is the `match` in each barometer.
* A fetch of `(symbol, range)` is an oracle `Env`; a run of the script fixes
  one response (success with a price history, or a raised exception) per
  `(symbol, range)` pair, covering every combination of per-signal fetch
  successes and failures.
* Numeric text formatting of f-strings is abstracted by `fmtQ`; no claim
  depends on the rendered digits.  In the three volatility signals the
  success-branch detail omits the formatted `stdev` value (an irrational
  square root); no claim depends on success-branch details.  The
  exception-text truncation `str(e)[:50]` is modelled exactly by `pyTrunc`.
-/

/-- A fetched price history: ordered `(epoch timestamp, close)` pairs, as
produced by `fetch_yahoo_history` after dropping `None` closes. -/
abbrev History := List (Nat × ℚ)

/-- Fetch oracle: the outcome of `fetch_yahoo_history symbol range` during one
run, either a history or a raised exception message. -/
abbrev Env := String → String → Except String History

/-- A Python value stored in the `triggered` field of a signal dict.  The gold
COT signal computes `price_percentile and price_percentile > 85`, which in
Python is `None`, `0.0`, or a bool; every other signal stores a bool. -/
inductive PyVal where
  | bool (b : Bool)
  | none
  | float (q : ℚ)
deriving Repr, DecidableEq

/-- Python truthiness of a `PyVal`: `None` and `0.0` are falsy. -/
def PyVal.truthy : PyVal → Bool
  | .bool b => b
  | .none => false
  | .float q => q != 0

/-- Whether a `PyVal` is an actual bool. -/
def PyVal.isBool : PyVal → Bool
  | .bool _ => true
  | _ => false

/-- Placeholder for Python f-string numeric formatting (`:+.1f` etc.); the
digits rendered in success-branch detail strings are irrelevant to all
claims. -/
def fmtQ (q : ℚ) : String := toString q

/-- Python string slice `s[:n]`: the first `n` characters. -/
def pyTrunc (s : String) (n : Nat) : String := ⟨s.data.take n⟩

/-- Python negative indexing `l[-i]` (for `i ≥ 1`): the `i`-th element from
the end, raising `IndexError` when the list is shorter than `i` (and for the
degenerate `i = 0`, which never occurs in the scripts). -/
def pyNegIdx {α : Type} (l : List α) (i : Nat) : Except String α :=
  if h : 1 ≤ i ∧ i ≤ l.length then .ok (l.get ⟨l.length - i, by omega⟩)
  else .error "list index out of range"

/-- Python `l[0]`, raising `IndexError` on an empty list. -/
def pyIdx0 {α : Type} (l : List α) : Except String α :=
  match l with
  | [] => .error "list index out of range"
  | x :: _ => .ok x

/-- Python slice `l[-n:]`: the last `n` elements (`l[-0:]` is the whole
list). -/
def pyLastN {α : Type} (l : List α) (n : Nat) : List α :=
  if n = 0 then l else l.drop (l.length - n)

/-- Positions `i, i+1, ...` of the tail, keeping indices divisible by `n`. -/
def everyNthAux {α : Type} (n : Nat) (i : Nat) : List α → List α
  | [] => []
  | x :: xs =>
    if i % n = 0 then x :: everyNthAux n (i + 1) xs else everyNthAux n (i + 1) xs

/-- Python slice `l[::n]` for `n > 0`: every `n`-th element starting at
index 0. -/
def pyEveryNth {α : Type} (n : Nat) (l : List α) : List α := everyNthAux n 0 l

/-- `statistics.mean`, which raises `StatisticsError` on an empty sequence. -/
def pyMean (l : List ℚ) : Except String ℚ :=
  if l.isEmpty then .error "mean requires at least one data point"
  else .ok (l.sum / (l.length : ℚ))

/-- The square of `statistics.stdev` (sample variance); `stdev` raises
`StatisticsError` on fewer than two data points. -/
def pyVarSample (l : List ℚ) : Except String ℚ :=
  if l.length < 2 then .error "stdev requires at least two data points"
  else
    let m := l.sum / (l.length : ℚ)
    .ok ((l.map (fun x => (x - m) ^ 2)).sum / ((l.length : ℚ) - 1))

/-- Python float division, which raises `ZeroDivisionError` on a zero
denominator. -/
def pyDiv (a b : ℚ) : Except String ℚ :=
  if b = 0 then .error "float division by zero" else .ok (a / b)

/-- Python `max(...)` over the closes of a history, raising on an empty
sequence. -/
def pyMax (l : List ℚ) : Except String ℚ :=
  match l with
  | [] => .error "max() arg is an empty sequence"
  | x :: xs => .ok (xs.foldl max x)

/-- `stdev(l) / mean(l) * 100 > t`, the relative-volatility trigger.  The
square root is eliminated by squaring: for the positive thresholds used in the
scripts (3, 2.5, 8), `sqrt v / m * 100 > t` holds iff `m > 0` and
`100^2 * v > t^2 * m^2` (the left side is nonnegative, and for `m ≤ 0` the
quotient is nonpositive).  Evaluation order follows the source: `stdev` first
(raising on short input), then `mean`, then the division (raising when the
mean is zero). -/
def relVolGT (l : List ℚ) (t : ℚ) : Except String Bool := do
  let v ← pyVarSample l
  let m ← pyMean l
  if m = 0 then .error "float division by zero"
  else pure (decide (0 < m) && decide (t ^ 2 * m ^ 2 < 10000 * v))

/-- `calculate_ma` from the source: `None` when the history is shorter than
`period`, otherwise `statistics.mean` of the last `period` closes (for the
degenerate `period = 0`, Python's `history[-0:]` is the whole list, and
`mean([])` raises on an empty history). -/
def calculate_ma (history : History) (period : Nat) : Except String (Option ℚ) :=
  if history.length < period then .ok Option.none
  else do
    let recent_prices := (pyLastN history period).map Prod.snd
    let m ← pyMean recent_prices
    pure (Option.some m)

/-- `percentile_rank` from the source: `None` on an empty population or a
`None` value, otherwise `100 *` the fraction of the (sorted) population
strictly below the value. -/
def percentile_rank (value : Option ℚ) (historical_values : List ℚ) : Option ℚ :=
  if historical_values.isEmpty || value.isNone then Option.none
  else
    match value with
    | Option.none => Option.none
    | Option.some v =>
      let sorted_vals := historical_values.insertionSort (· ≤ ·)
      let count_below := sorted_vals.countP (fun x => decide (x < v))
      Option.some ((count_below : ℚ) / (sorted_vals.length : ℚ) * 100)

/-- One entry of a barometer's `signals` list. -/
structure SignalResult where
  name : String
  triggered : PyVal
  points : Nat
  maxPoints : Nat
  detail : String
deriving Repr, DecidableEq

/-- Builds the signal dict appended in a `try` branch, paired with the points
simultaneously added to the running `score` (`score += pts` in the source). -/
def emit (name : String) (trig : PyVal) (pts maxPts : Nat) (detail : String) :
    SignalResult × Nat :=
  (⟨name, trig, pts, maxPts, detail⟩, pts)

/-- The signal dict appended by an `except` branch: not triggered, zero
points, and the exception text truncated to 50 characters. -/
def fallbackSignal (name : String) (maxPts : Nat) (e : String) : SignalResult :=
  ⟨name, .bool false, 0, maxPts, "Data unavailable: " ++ pyTrunc e 50⟩

/-- The per-signal `try/except` boundary: a raised exception inside the signal
body becomes the fallback record with zero score contribution. -/
def trySignal (fbName : String) (maxPts : Nat)
    (body : Except String (SignalResult × Nat)) : SignalResult × Nat :=
  match body with
  | .ok r => r
  | .error e => (fallbackSignal fbName maxPts e, 0)

/-- The dict returned by one barometer function: either the score record or
`{'error': msg}` (which carries no score/level/signals keys). -/
inductive BarometerResult where
  | ok (score : Nat) (level : String) (signals : List SignalResult)
      (recommendation : String)
  | error (msg : String)
deriving Repr, DecidableEq

def BarometerResult.isErr : BarometerResult → Bool
  | .ok _ _ _ _ => false
  | .error _ => true

def BarometerResult.signalsOf : BarometerResult → List SignalResult
  | .ok _ _ s _ => s
  | .error _ => []

def BarometerResult.scoreOf : BarometerResult → Nat
  | .ok sc _ _ _ => sc
  | .error _ => 0

def BarometerResult.levelOf : BarometerResult → String
  | .ok _ lv _ _ => lv
  | .error _ => ""

/-! ### Gold barometer (`fetch_gold_barometer`) -/

/-- Risk level and recommendation for the gold score (`score <= 30` LOW,
`<= 50` CAUTION, `<= 70` WARNING, else DANGER). -/
def goldLevelRec (score : Nat) : String × String :=
  if score ≤ 30 then
    ("LOW", "Normal conditions. Maintain trend-following positions.")
  else if score ≤ 50 then
    ("CAUTION", "Elevated risk. Monitor closely, prepare hedges.")
  else if score ≤ 70 then
    ("WARNING", "High risk. Consider reducing exposure by 25-50%.")
  else
    ("DANGER", "Extreme risk. Hedge aggressively or reduce to 25% position.")

/-- The baseline fetch of a barometer: the class's own 1-year history and the
current price `history[-1][1]`. -/
def classBaseline (env : Env) (symbol : String) : Except String (History × ℚ) := do
  let history ← env symbol "1y"
  let last ← pyNegIdx history 1
  pure (history, last.2)

/-- Gold signal 1, COT positioning proxy (30 pts): percentile of the current
price in weekly samples of the 5-year history; `price_percentile and
price_percentile > 85` stores a Python bool, `None`, or `0.0`. -/
def goldSignal1 (env : Env) (current_price : ℚ) :
    Except String (SignalResult × Nat) := do
  let gold_5y ← env "GC=F" "5y"
  let weekly_prices := (pyEveryNth 7 gold_5y).map Prod.snd
  let price_percentile := percentile_rank (Option.some current_price) weekly_prices
  let cot_triggered : PyVal :=
    match price_percentile with
    | Option.none => PyVal.none
    | Option.some p => if p = 0 then PyVal.float 0 else PyVal.bool (decide (p > 85))
  let cot_points : Nat := if cot_triggered.truthy then 30 else 0
  let detail :=
    match price_percentile with
    | Option.none => "Unavailable"
    | Option.some p =>
      if p = 0 then "Unavailable"
      else "Price at " ++ fmtQ p ++ "th percentile (5yr)"
  pure (emit "COT Positioning (Proxy)" cot_triggered cot_points 30 detail)

/-- Gold signal 2, real-yields surge (25 pts): 4-week change of the 10Y yield
in bps, triggering above 50. -/
def goldSignal2 (env : Env) : Except String (SignalResult × Nat) := do
  let tnx_history ← env "^TNX" "3mo"
  if tnx_history.length ≥ 28 then do
    let lastE ← pyNegIdx tnx_history 1
    let moE ← pyNegIdx tnx_history 28
    let current_yield := lastE.2 / 10
    let month_ago_yield := moE.2 / 10
    let yield_change := (current_yield - month_ago_yield) * 100
    let trig := decide (yield_change > 50)
    let pts : Nat := if trig then 25 else 0
    pure (emit "Real Yields Surge" (PyVal.bool trig) pts 25
      ("4-week change: " ++ fmtQ yield_change ++ "bps (current: " ++
        fmtQ current_yield ++ "%)"))
  else Except.error "Insufficient yield data"

/-- Gold signal 3, 50-day MA deviation (15 pts): `if ma_50:` treats `None`
and a zero moving average as falsy and raises the insufficient-history
error. -/
def goldSignal3 (gold_history : History) (current_price : ℚ) :
    Except String (SignalResult × Nat) := do
  let ma_50 ← calculate_ma gold_history 50
  match ma_50 with
  | Option.none => Except.error "Insufficient history for MA"
  | Option.some m =>
    if m = 0 then Except.error "Insufficient history for MA"
    else
      let deviation_pct := (current_price - m) / m * 100
      let trig := decide (deviation_pct > 10)
      let pts : Nat := if trig then 15 else 0
      pure (emit "MA Overextension" (PyVal.bool trig) pts 15
        (fmtQ deviation_pct ++ "% above 50-day MA"))

/-- Gold signal 4, DXY breakout (15 pts): dollar index above its 200-day MA
and rising week-over-week. -/
def goldSignal4 (env : Env) : Except String (SignalResult × Nat) := do
  let dxy_history ← env "DX-Y.NYB" "1y"
  let lastE ← pyNegIdx dxy_history 1
  let current_dxy := lastE.2
  let ma_200 ← calculate_ma dxy_history 200
  match ma_200 with
  | Option.none => Except.error "Insufficient DXY history"
  | Option.some m =>
    if m = 0 then Except.error "Insufficient DXY history"
    else do
      let week_ago_dxy ←
        if dxy_history.length ≥ 7 then do
          let wk ← pyNegIdx dxy_history 7
          pure wk.2
        else pure current_dxy
      let is_rising := decide (current_dxy > week_ago_dxy)
      let above_ma := decide (current_dxy > m)
      let trig := above_ma && is_rising
      let pts : Nat := if trig then 15 else 0
      let ma_diff_pct := (current_dxy - m) / m * 100
      pure (emit "DXY Breakout" (PyVal.bool trig) pts 15
        (fmtQ ma_diff_pct ++ "% vs 200-MA, " ++
          (if is_rising then "rising" else "falling")))

/-- Gold signal 5, volatility extreme (15 pts): 20-day relative volatility
above 3%. -/
def goldSignal5 (gold_history : History) : Except String (SignalResult × Nat) := do
  let recent_prices := (pyLastN gold_history 20).map Prod.snd
  if recent_prices.length ≥ 20 then do
    let trig ← relVolGT recent_prices 3
    let pts : Nat := if trig then 15 else 0
    pure (emit "Volatility Extreme" (PyVal.bool trig) pts 15 "20-day volatility")
  else Except.error "Insufficient data"

/-- `fetch_gold_barometer`: baseline fetch, five signals each wrapped in
`try/except`, score accumulation, and level mapping. -/
def fetch_gold_barometer (env : Env) : BarometerResult :=
  match classBaseline env "GC=F" with
  | .error e => .error ("Failed to fetch gold data: " ++ e)
  | .ok (gold_history, current_price) =>
    let t1 := trySignal "COT Positioning" 30 (goldSignal1 env current_price)
    let t2 := trySignal "Real Yields" 25 (goldSignal2 env)
    let t3 := trySignal "MA Deviation" 15 (goldSignal3 gold_history current_price)
    let t4 := trySignal "DXY Breakout" 15 (goldSignal4 env)
    let t5 := trySignal "Sentiment" 15 (goldSignal5 gold_history)
    let score := t1.2 + t2.2 + t3.2 + t4.2 + t5.2
    let signals := [t1.1, t2.1, t3.1, t4.1, t5.1]
    .ok score (goldLevelRec score).1 signals (goldLevelRec score).2

/-! ### S&P 500 barometer (`fetch_sp500_barometer`) -/

/-- Level mapping and recommendations for the S&P 500 score. -/
def sp500LevelRec (score : Nat) : String × String :=
  if score ≤ 30 then
    ("LOW", "Normal market conditions. Continue systematic strategies.")
  else if score ≤ 50 then
    ("CAUTION", "Elevated risk. Consider tightening stops.")
  else if score ≤ 70 then
    ("WARNING", "High risk environment. Reduce equity exposure.")
  else
    ("DANGER", "Extreme risk. Consider significant hedging.")

/-- S&P signal 1, VIX level (30 pts): current VIX above 25. -/
def sp500Signal1 (env : Env) : Except String (SignalResult × Nat) := do
  let vix_history ← env "^VIX" "3mo"
  let lastE ← pyNegIdx vix_history 1
  let current_vix := lastE.2
  let trig := decide (current_vix > 25)
  let pts : Nat := if trig then 30 else 0
  pure (emit "VIX Elevated" (PyVal.bool trig) pts 30
    ("VIX at " ++ fmtQ current_vix ++ " (threshold: 25)"))

/-- S&P signal 2, yield curve (25 pts): 10Y minus 13-week spread below
0.2%. -/
def sp500Signal2 (env : Env) : Except String (SignalResult × Nat) := do
  let tnxH ← env "^TNX" "1mo"
  let tnxLast ← pyNegIdx tnxH 1
  let tnx_10y := tnxLast.2 / 10
  let irxH ← env "^IRX" "1mo"
  let irxLast ← pyNegIdx irxH 1
  let irx_short := irxLast.2 / 10
  let yield_spread := tnx_10y - irx_short
  let trig := decide (yield_spread < 0.2)
  let pts : Nat := if trig then 25 else 0
  pure (emit "Yield Curve" (PyVal.bool trig) pts 25
    ("10Y-2Y spread: " ++ fmtQ yield_spread ++ "% " ++
      (if yield_spread < 0 then "(inverted)" else "")))

/-- S&P signal 3, 200-day MA deviation (20 pts): price more than 8% above the
200-day MA; `if ma_200:` treats `None` and zero as falsy. -/
def sp500Signal3 (sp_history : History) (current_price : ℚ) :
    Except String (SignalResult × Nat) := do
  let ma_200 ← calculate_ma sp_history 200
  match ma_200 with
  | Option.none => Except.error "Insufficient history"
  | Option.some m =>
    if m = 0 then Except.error "Insufficient history"
    else
      let deviation_pct := (current_price - m) / m * 100
      let trig := decide (deviation_pct > 8)
      let pts : Nat := if trig then 20 else 0
      pure (emit "MA Overextension" (PyVal.bool trig) pts 20
        (fmtQ deviation_pct ++ "% vs 200-day MA"))

/-- S&P signal 4, hedging surge (15 pts): VIX up more than 30% in a week.
The source refetches `^VIX 1mo` three times (once for the current value, once
inside the `len(...)` test, once for the week-ago value). -/
def sp500Signal4 (env : Env) : Except String (SignalResult × Nat) := do
  let v1 ← env "^VIX" "1mo"
  let curE ← pyNegIdx v1 1
  let vix_current := curE.2
  let vLen ← env "^VIX" "1mo"
  let vix_week_ago ←
    if vLen.length ≥ 7 then do
      let v2 ← env "^VIX" "1mo"
      let wkE ← pyNegIdx v2 7
      pure wkE.2
    else pure vix_current
  let q ← pyDiv (vix_current - vix_week_ago) vix_week_ago
  let vix_change_pct := q * 100
  let trig := decide (vix_change_pct > 30)
  let pts : Nat := if trig then 15 else 0
  pure (emit "Hedging Surge" (PyVal.bool trig) pts 15
    ("VIX 1-week change: " ++ fmtQ vix_change_pct ++ "%"))

/-- S&P signal 5, market breadth (10 pts): Nasdaq lagging the S&P by more
than 3% over one month. -/
def sp500Signal5 (env : Env) (sp_history : History) :
    Except String (SignalResult × Nat) := do
  let nasdaq_history ← env "^IXIC" "1mo"
  let nLast ← pyNegIdx nasdaq_history 1
  let nFirst ← pyIdx0 nasdaq_history
  let q1 ← pyDiv (nLast.2 - nFirst.2) nFirst.2
  let nasdaq_change_1m := q1 * 100
  let sp_change_1m ←
    if sp_history.length ≥ 30 then do
      let sLast ← pyNegIdx sp_history 1
      let sMo ← pyNegIdx sp_history 30
      let q2 ← pyDiv (sLast.2 - sMo.2) sMo.2
      pure (q2 * 100)
    else pure 0
  let divergence := nasdaq_change_1m - sp_change_1m
  let trig := decide (divergence < -3)
  let pts : Nat := if trig then 10 else 0
  pure (emit "Market Breadth" (PyVal.bool trig) pts 10
    ("NDX-SPX divergence: " ++ fmtQ divergence ++ "%"))

/-- `fetch_sp500_barometer`. -/
def fetch_sp500_barometer (env : Env) : BarometerResult :=
  match classBaseline env "^GSPC" with
  | .error e => .error ("Failed to fetch S&P 500 data: " ++ e)
  | .ok (sp_history, current_price) =>
    let t1 := trySignal "VIX Level" 30 (sp500Signal1 env)
    let t2 := trySignal "Yield Curve" 25 (sp500Signal2 env)
    let t3 := trySignal "MA Deviation" 20 (sp500Signal3 sp_history current_price)
    let t4 := trySignal "Put/Call Ratio" 15 (sp500Signal4 env)
    let t5 := trySignal "Market Breadth" 10 (sp500Signal5 env sp_history)
    let score := t1.2 + t2.2 + t3.2 + t4.2 + t5.2
    let signals := [t1.1, t2.1, t3.1, t4.1, t5.1]
    .ok score (sp500LevelRec score).1 signals (sp500LevelRec score).2

/-! ### Nasdaq barometer (`fetch_nasdaq_barometer`) -/

/-- Level mapping and recommendations for the Nasdaq score. -/
def nasdaqLevelRec (score : Nat) : String × String :=
  if score ≤ 30 then
    ("LOW", "Normal conditions for growth/tech.")
  else if score ≤ 50 then
    ("CAUTION", "Elevated risk. Monitor rate-sensitive positions.")
  else if score ≤ 70 then
    ("WARNING", "High risk. Consider rotating to defensive sectors.")
  else
    ("DANGER", "Extreme risk for tech. Reduce exposure significantly.")

/-- Nasdaq signal 1, VIX level (30 pts). -/
def nasdaqSignal1 (env : Env) : Except String (SignalResult × Nat) := do
  let vix_history ← env "^VIX" "3mo"
  let lastE ← pyNegIdx vix_history 1
  let current_vix := lastE.2
  let trig := decide (current_vix > 25)
  let pts : Nat := if trig then 30 else 0
  pure (emit "VIX Elevated" (PyVal.bool trig) pts 30 ("VIX at " ++ fmtQ current_vix))

/-- Nasdaq signal 2, 200-day MA deviation (25 pts, threshold 12%). -/
def nasdaqSignal2 (nasdaq_history : History) (current_price : ℚ) :
    Except String (SignalResult × Nat) := do
  let ma_200 ← calculate_ma nasdaq_history 200
  match ma_200 with
  | Option.none => Except.error "Insufficient history"
  | Option.some m =>
    if m = 0 then Except.error "Insufficient history"
    else
      let deviation_pct := (current_price - m) / m * 100
      let trig := decide (deviation_pct > 12)
      let pts : Nat := if trig then 25 else 0
      pure (emit "MA Overextension" (PyVal.bool trig) pts 25
        (fmtQ deviation_pct ++ "% vs 200-day MA"))

/-- Nasdaq signal 3, rate surge (20 pts): 4-week 10Y yield change above
40 bps, falling back to the current yield when fewer than 28 points exist. -/
def nasdaqSignal3 (env : Env) : Except String (SignalResult × Nat) := do
  let tnx_history ← env "^TNX" "3mo"
  let lastE ← pyNegIdx tnx_history 1
  let current_yield := lastE.2 / 10
  let month_ago_yield ←
    if tnx_history.length ≥ 28 then do
      let moE ← pyNegIdx tnx_history 28
      pure (moE.2 / 10)
    else pure current_yield
  let yield_change := (current_yield - month_ago_yield) * 100
  let trig := decide (yield_change > 40)
  let pts : Nat := if trig then 20 else 0
  pure (emit "Rate Surge" (PyVal.bool trig) pts 20
    ("4-week yield change: " ++ fmtQ yield_change ++ "bps"))

/-- Nasdaq signal 4, momentum reversal (15 pts): strong 60→30-day gain
followed by a negative 30-day-to-now move. -/
def nasdaqSignal4 (nasdaq_history : History) (current_price : ℚ) :
    Except String (SignalResult × Nat) := do
  if nasdaq_history.length ≥ 60 then do
    let p60 ← pyNegIdx nasdaq_history 60
    let p30 ← pyNegIdx nasdaq_history 30
    let q1 ← pyDiv (p30.2 - p60.2) p60.2
    let momentum_60d := q1 * 100
    let q2 ← pyDiv (current_price - p30.2) p30.2
    let momentum_recent := q2 * 100
    let trig := decide (momentum_60d > 5) && decide (momentum_recent < -2)
    let pts : Nat := if trig then 15 else 0
    pure (emit "Momentum Reversal" (PyVal.bool trig) pts 15
      ("60d: " ++ fmtQ momentum_60d ++ "%, 30d: " ++ fmtQ momentum_recent ++ "%"))
  else Except.error "Insufficient history"

/-- Nasdaq signal 5, volatility spike (10 pts): 20-day relative volatility
above 2.5% (no length guard; `stdev` raises on fewer than two points). -/
def nasdaqSignal5 (nasdaq_history : History) : Except String (SignalResult × Nat) := do
  let recent_prices := (pyLastN nasdaq_history 20).map Prod.snd
  let trig ← relVolGT recent_prices 2.5
  let pts : Nat := if trig then 10 else 0
  pure (emit "Volatility Spike" (PyVal.bool trig) pts 10 "20-day vol")

/-- `fetch_nasdaq_barometer`. -/
def fetch_nasdaq_barometer (env : Env) : BarometerResult :=
  match classBaseline env "^IXIC" with
  | .error e => .error ("Failed to fetch Nasdaq data: " ++ e)
  | .ok (nasdaq_history, current_price) =>
    let t1 := trySignal "VIX Level" 30 (nasdaqSignal1 env)
    let t2 := trySignal "MA Deviation" 25 (nasdaqSignal2 nasdaq_history current_price)
    let t3 := trySignal "Rate Sensitivity" 20 (nasdaqSignal3 env)
    let t4 := trySignal "Momentum" 15 (nasdaqSignal4 nasdaq_history current_price)
    let t5 := trySignal "Volatility" 10 (nasdaqSignal5 nasdaq_history)
    let score := t1.2 + t2.2 + t3.2 + t4.2 + t5.2
    let signals := [t1.1, t2.1, t3.1, t4.1, t5.1]
    .ok score (nasdaqLevelRec score).1 signals (nasdaqLevelRec score).2

/-! ### Bitcoin barometer (`fetch_bitcoin_barometer`) -/

/-- Level mapping and recommendations for the Bitcoin score. -/
def bitcoinLevelRec (score : Nat) : String × String :=
  if score ≤ 30 then
    ("LOW", "Normal crypto conditions. Maintain positions.")
  else if score ≤ 50 then
    ("CAUTION", "Elevated risk. Consider taking profits on leveraged positions.")
  else if score ≤ 70 then
    ("WARNING", "High risk. Reduce exposure, avoid leverage.")
  else
    ("DANGER", "Extreme risk. Significant correction likely.")

/-- Bitcoin signal 1, 200-day MA deviation (30 pts, threshold 25%). -/
def btcSignal1 (btc_history : History) (current_price : ℚ) :
    Except String (SignalResult × Nat) := do
  let ma_200 ← calculate_ma btc_history 200
  match ma_200 with
  | Option.none => Except.error "Insufficient history"
  | Option.some m =>
    if m = 0 then Except.error "Insufficient history"
    else
      let deviation_pct := (current_price - m) / m * 100
      let trig := decide (deviation_pct > 25)
      let pts : Nat := if trig then 30 else 0
      pure (emit "MA Overextension" (PyVal.bool trig) pts 30
        (fmtQ deviation_pct ++ "% vs 200-day MA"))

/-- Bitcoin signal 2, volatility extreme (25 pts): 30-day relative volatility
above 8% (no length guard). -/
def btcSignal2 (btc_history : History) : Except String (SignalResult × Nat) := do
  let recent_prices := (pyLastN btc_history 30).map Prod.snd
  let trig ← relVolGT recent_prices 8
  let pts : Nat := if trig then 25 else 0
  pure (emit "Volatility Extreme" (PyVal.bool trig) pts 25 "30-day volatility")

/-- Bitcoin signal 3, momentum exhaustion (20 pts): first-60-day gain above
30% followed by a last-30-day gain below 10%. -/
def btcSignal3 (btc_history : History) (current_price : ℚ) :
    Except String (SignalResult × Nat) := do
  if btc_history.length ≥ 90 then do
    let p90 ← pyNegIdx btc_history 90
    let p30 ← pyNegIdx btc_history 30
    let q1 ← pyDiv (p30.2 - p90.2) p90.2
    let gain_first_60d := q1 * 100
    let q2 ← pyDiv (current_price - p30.2) p30.2
    let gain_last_30d := q2 * 100
    let trig := decide (gain_first_60d > 30) && decide (gain_last_30d < 10)
    let pts : Nat := if trig then 20 else 0
    pure (emit "Momentum Exhaustion" (PyVal.bool trig) pts 20
      ("60d gain: " ++ fmtQ gain_first_60d ++ "%, 30d: " ++ fmtQ gain_last_30d ++ "%"))
  else Except.error "Insufficient history"

/-- Bitcoin signal 4, risk-off correlation (15 pts): both BTC and Nasdaq down
more than 10% over 60 days. -/
def btcSignal4 (env : Env) (btc_history : History) :
    Except String (SignalResult × Nat) := do
  let nasdaq_history ← env "^IXIC" "3mo"
  let btc_recent := (pyLastN btc_history 60).map Prod.snd
  let nasdaq_recent := (pyLastN nasdaq_history 60).map Prod.snd
  if btc_recent.length ≥ 60 ∧ nasdaq_recent.length ≥ 60 then do
    let bLast ← pyNegIdx btc_recent 1
    let bFirst ← pyIdx0 btc_recent
    let q1 ← pyDiv (bLast - bFirst) bFirst
    let btc_change := q1 * 100
    let nLast ← pyNegIdx nasdaq_recent 1
    let nFirst ← pyIdx0 nasdaq_recent
    let q2 ← pyDiv (nLast - nFirst) nFirst
    let ndx_change := q2 * 100
    let trig := decide (btc_change < -10) && decide (ndx_change < -10)
    let pts : Nat := if trig then 15 else 0
    pure (emit "Risk-Off Correlation" (PyVal.bool trig) pts 15
      ("BTC: " ++ fmtQ btc_change ++ "%, NDX: " ++ fmtQ ndx_change ++ "%"))
  else Except.error "Insufficient data"

/-- Bitcoin signal 5, drawdown from ATH (10 pts): triggers when the current
price is strictly more than 30% below the series maximum (`drawdown_pct <
-30`). -/
def btcSignal5 (btc_history : History) (current_price : ℚ) :
    Except String (SignalResult × Nat) := do
  let all_time_high ← pyMax (btc_history.map Prod.snd)
  let q ← pyDiv (current_price - all_time_high) all_time_high
  let drawdown_pct := q * 100
  let trig := decide (drawdown_pct < -30)
  let pts : Nat := if trig then 10 else 0
  pure (emit "Drawdown from ATH" (PyVal.bool trig) pts 10
    (fmtQ drawdown_pct ++ "% from all-time high"))

/-- `fetch_bitcoin_barometer`. -/
def fetch_bitcoin_barometer (env : Env) : BarometerResult :=
  match classBaseline env "BTC-USD" with
  | .error e => .error ("Failed to fetch Bitcoin data: " ++ e)
  | .ok (btc_history, current_price) =>
    let t1 := trySignal "MA Deviation" 30 (btcSignal1 btc_history current_price)
    let t2 := trySignal "Volatility" 25 (btcSignal2 btc_history)
    let t3 := trySignal "Momentum" 20 (btcSignal3 btc_history current_price)
    let t4 := trySignal "Correlation" 15 (btcSignal4 env btc_history)
    let t5 := trySignal "Drawdown" 10 (btcSignal5 btc_history current_price)
    let score := t1.2 + t2.2 + t3.2 + t4.2 + t5.2
    let signals := [t1.1, t2.1, t3.1, t4.1, t5.1]
    .ok score (bitcoinLevelRec score).1 signals (bitcoinLevelRec score).2

/-! ### Risk-barometer main -/

/-- The `main` loop of `fetch_risk_barometer.py`: evaluates the four classes
in fixed order and records each result (the per-class `try/except` in the loop
is unreachable here because the four functions are total). -/
def run_risk_barometer (env : Env) : List (String × BarometerResult) :=
  [ ("gold", fetch_gold_barometer env),
    ("sp500", fetch_sp500_barometer env),
    ("nasdaq", fetch_nasdaq_barometer env),
    ("bitcoin", fetch_bitcoin_barometer env) ]

/-- Number of asset classes that produced a score record in one run. -/
def barometerSuccesses (env : Env) : Nat :=
  (run_risk_barometer env).countP (fun kv => !kv.2.isErr)

/-- Exit status of the risk-barometer process when `main` runs to completion:
the script never calls `sys.exit` in `main`, so the process exits 0 however
many asset classes failed (`sys.exit(1)` is reached only from the top-level
`except` handlers, which the computation itself cannot trigger). -/
def risk_barometer_exit (_env : Env) : Nat := 0

/-! ### Market-data pipeline (`fetch_market_data.py`) -/

/-- Fields read from `result['meta']` by `fetch_symbol`. -/
structure ChartMeta where
  regularMarketPrice : Option ℚ
  chartPreviousClose : Option ℚ
  previousClose : Option ℚ
  marketState : Option String
  regularMarketVolume : Option Nat
  currency : Option String
deriving Repr, DecidableEq

/-- The parsed chart payload for one symbol: meta fields and the raw close
list (possibly absent, possibly containing `None` entries). -/
structure RawChart where
  meta : ChartMeta
  closeRaw : Option (List (Option ℚ))
deriving Repr, DecidableEq

/-- Fetch oracle for the snapshot pipeline: per symbol, the parsed chart or a
raised network/parse exception. -/
abbrev MDEnv := String → Except String RawChart

/-- Python truthiness of an optional float (`None` and `0.0` are falsy). -/
def qTruthy : Option ℚ → Bool
  | Option.none => false
  | Option.some q => q != 0

/-- Python `a or b` on optional floats: `a` when truthy, else `b`. -/
def pyOrQ (a b : Option ℚ) : Option ℚ := if qTruthy a then a else b

/-- The numeric value of an optional float after a truthiness guard. -/
def qVal : Option ℚ → ℚ
  | Option.none => 0
  | Option.some q => q

/-- The snapshot dict built by `fetch_symbol` (decimal display rounding is
abstracted as the identity; no claim depends on it). -/
structure AssetSnapshot where
  price : Option ℚ
  prevClose : Option ℚ
  dailyChange : ℚ
  dailyChangePct : ℚ
  weekChangePct : ℚ
  sparkData : List ℚ
  high : Option ℚ
  low : Option ℚ
  marketState : String
  volume : Nat
  currency : String
deriving Repr, DecidableEq

/-- `fetch_symbol` from `fetch_market_data.py`: raises exactly when the fetch
or parse raises; all later arithmetic is guarded by truthiness checks. -/
def fetch_symbol (env : MDEnv) (sym : String) : Except String AssetSnapshot := do
  let rc ← env sym
  let closes_raw := rc.closeRaw.getD []
  let closes := closes_raw.filterMap id
  let price := pyOrQ rc.meta.regularMarketPrice closes.getLast?
  let prev_close := pyOrQ rc.meta.chartPreviousClose rc.meta.previousClose
  let daily_change :=
    if qTruthy price && qTruthy prev_close then qVal price - qVal prev_close else 0
  let daily_change_pct :=
    if qTruthy prev_close then daily_change / qVal prev_close * 100 else 0
  let first_close :=
    match closes with
    | [] => prev_close
    | c :: _ => Option.some c
  let week_change :=
    if qTruthy price && qTruthy first_close then qVal price - qVal first_close else 0
  let week_change_pct :=
    if qTruthy first_close then week_change / qVal first_close * 100 else 0
  pure
    { price := if qTruthy price then price else Option.none
      prevClose := if qTruthy prev_close then prev_close else Option.none
      dailyChange := daily_change
      dailyChangePct := daily_change_pct
      weekChangePct := week_change_pct
      sparkData := pyLastN closes 48
      high :=
        match closes with
        | [] => Option.none
        | c :: cs => Option.some (cs.foldl max c)
      low :=
        match closes with
        | [] => Option.none
        | c :: cs => Option.some (cs.foldl min c)
      marketState := rc.meta.marketState.getD "CLOSED"
      volume := rc.meta.regularMarketVolume.getD 0
      currency := rc.meta.currency.getD "USD" }

/-- The nine symbols of the snapshot pipeline, in source order. -/
def SYMBOLS : List String :=
  ["GC=F", "SI=F", "CL=F", "^GSPC", "^IXIC", "^DJI", "BTC-USD", "ETH-USD", "DX-Y.NYB"]

/-- One `assets` entry: a snapshot or the `{'error': True}` record. -/
inductive AssetEntry where
  | ok (snap : AssetSnapshot)
  | err
deriving Repr, DecidableEq

/-- Whether an `Except` result is a success. -/
def isOkE {ε α : Type} : Except ε α → Bool
  | .ok _ => true
  | .error _ => false

/-- One iteration of the `for sym in SYMBOLS` loop: record the snapshot and
bump `success`, or record `{'error': True}`. -/
def market_step (env : MDEnv) (acc : List (String × AssetEntry) × Nat)
    (sym : String) : List (String × AssetEntry) × Nat :=
  match fetch_symbol env sym with
  | .ok s => (acc.1 ++ [(sym, .ok s)], acc.2 + 1)
  | .error _ => (acc.1 ++ [(sym, .err)], acc.2)

/-- The `main` of `fetch_market_data.py`: the assets mapping and the
`success` counter. -/
def market_main (env : MDEnv) : List (String × AssetEntry) × Nat :=
  SYMBOLS.foldl (market_step env) ([], 0)

/-- Exit status of the snapshot pipeline: `sys.exit(1)` iff `success == 0`,
else fall off the end of `main` (exit 0). -/
def market_exit (env : MDEnv) : Nat :=
  if (market_main env).2 = 0 then 1 else 0

/-! ### Concrete fetch oracles used by witnesses and counterexamples -/

/-- An environment in which every fetch raises. -/
def envFail : Env := fun _ _ => .error "network down"

/-- Gold baseline succeeds with one point; every other fetch raises with a
50-character message. -/
def msg50 : String := "xxxxxxxxxxxxxxxxxxxxxxxxxxxxxxxxxxxxxxxxxxxxxxxxxx"

def envC4 : Env := fun sym rng =>
  if sym = "GC=F" ∧ rng = "1y" then .ok [(0, 1)] else .error msg50

/-- Gold trades at 5 today but the weekly 5-year samples sit at 10, so the
COT percentile is `0.0` and `price_percentile and price_percentile > 85`
stores the float `0.0` in `triggered`. -/
def envCotZero : Env := fun sym rng =>
  if sym = "GC=F" then
    (if rng = "1y" then .ok [(0, 5)] else .ok [(0, 10)])
  else .error "no data"

/-- Snapshot-pipeline environment in which every fetch raises. -/
def mdEnvFail : MDEnv := fun _ => .error "network down"

/-! ### Specification-side predicates -/

/-- The `triggered` value is an honest bool. -/
def TBool (v : PyVal) : Prop := ∃ bo, v = PyVal.bool bo

/-- The `triggered` value of the gold COT signal: `None`, `0.0`, or a bool. -/
def TG1 (v : PyVal) : Prop := v = PyVal.none ∨ v = PyVal.float 0 ∨ TBool v

/-- Shape invariant of a signal body: on success, the recorded points equal
the score contribution, the budget is the signal's fixed `maxPoints`, the
award is all-or-nothing, and the `triggered` value satisfies `T`. -/
def SigShape (m : Nat) (T : PyVal → Prop)
    (b : Except String (SignalResult × Nat)) : Prop :=
  ∀ r p, b = Except.ok (r, p) →
    p = r.points ∧ r.maxPoints = m ∧ (r.points = 0 ∨ r.points = m) ∧ T r.triggered

/-- The level/threshold contract of one level-mapping function. -/
def levelOKAt (f : Nat → String × String) : Prop :=
  ∀ s : Nat,
    ((f s).1 = "LOW" ↔ s ≤ 30) ∧
    ((f s).1 = "CAUTION" ↔ 31 ≤ s ∧ s ≤ 50) ∧
    ((f s).1 = "WARNING" ↔ 51 ≤ s ∧ s ≤ 70) ∧
    ((f s).1 = "DANGER" ↔ 71 ≤ s)

/-- The score/signals invariant of one barometer result (claim C2). -/
def BaroInv (b : BarometerResult) : Prop :=
  b.isErr = true ∨
    (b.signalsOf.length = 5 ∧
      (b.signalsOf.map SignalResult.maxPoints).sum = 100 ∧
      b.scoreOf = (b.signalsOf.map SignalResult.points).sum ∧
      0 ≤ b.scoreOf ∧ b.scoreOf ≤ 100)

/-! ### Shape lemmas for the signal bodies -/

lemma exceptBind_ok {α β : Type} (x : Except String α) (f : α → Except String β)
    (b : β) (h : x >>= f = Except.ok b) :
    ∃ a, x = Except.ok a ∧ f a = Except.ok b := by
  cases x with
  | error e => simp [Bind.bind, Except.bind] at h
  | ok a => exact ⟨a, rfl, by simpa [Bind.bind, Except.bind] using h⟩

lemma sigShape_bind {α : Type} {m : Nat} {T : PyVal → Prop} (x : Except String α)
    (f : α → Except String (SignalResult × Nat)) (hf : ∀ a, SigShape m T (f a)) :
    SigShape m T (x >>= f) := by
  intro r p h
  obtain ⟨a, _, hfa⟩ := exceptBind_ok x f _ h
  exact hf a r p hfa

lemma sigShape_error {m : Nat} {T : PyVal → Prop} (e : String) :
    SigShape m T (Except.error e) := by
  intro r p h
  exact Except.noConfusion h

lemma sigShape_emit {m : Nat} {T : PyVal → Prop} (n : String) (t : PyVal) (c : Bool)
    (d : String) (ht : T t) :
    SigShape m T (pure (emit n t (if c then m else 0) m d)) := by
  intro r p h
  have h2 : emit n t (if c then m else 0) m d = (r, p) := by
    simpa [pure, Except.pure] using h
  rw [emit] at h2
  injection h2 with hA hB
  subst hA
  subst hB
  refine ⟨rfl, rfl, ?_, ht⟩
  cases c <;> simp

lemma tbool_false : TBool (PyVal.bool false) := ⟨false, rfl⟩

lemma goldSignal1_shape (env : Env) (cp : ℚ) : SigShape 30 TG1 (goldSignal1 env cp) := by
  unfold goldSignal1
  apply sigShape_bind; intro gold_5y
  apply sigShape_emit
  cases percentile_rank (Option.some cp) ((pyEveryNth 7 gold_5y).map Prod.snd) with
  | none => exact Or.inl rfl
  | some p =>
    dsimp only
    split
    · exact Or.inr (Or.inl rfl)
    · exact Or.inr (Or.inr ⟨_, rfl⟩)

lemma goldSignal2_shape (env : Env) : SigShape 25 TBool (goldSignal2 env) := by
  unfold goldSignal2
  apply sigShape_bind; intro tnx
  split
  · apply sigShape_bind; intro lastE
    apply sigShape_bind; intro moE
    exact sigShape_emit _ _ _ _ ⟨_, rfl⟩
  · exact sigShape_error _

lemma goldSignal3_shape (gh : History) (cp : ℚ) : SigShape 15 TBool (goldSignal3 gh cp) := by
  unfold goldSignal3
  apply sigShape_bind; intro ma
  cases ma with
  | none => exact sigShape_error _
  | some m =>
    dsimp only
    split
    · exact sigShape_error _
    · exact sigShape_emit _ _ _ _ ⟨_, rfl⟩

lemma goldSignal4_shape (env : Env) : SigShape 15 TBool (goldSignal4 env) := by
  unfold goldSignal4
  apply sigShape_bind; intro dxy
  apply sigShape_bind; intro lastE
  apply sigShape_bind; intro ma
  cases ma with
  | none => exact sigShape_error _
  | some m =>
    dsimp only
    split
    · exact sigShape_error _
    · split
      · apply sigShape_bind; intro wk
        apply sigShape_bind; intro y
        exact sigShape_emit _ _ _ _ ⟨_, rfl⟩
      · apply sigShape_bind; intro y
        exact sigShape_emit _ _ _ _ ⟨_, rfl⟩

lemma goldSignal5_shape (gh : History) : SigShape 15 TBool (goldSignal5 gh) := by
  unfold goldSignal5
  dsimp only
  split
  · apply sigShape_bind; intro trig
    exact sigShape_emit _ _ _ _ ⟨_, rfl⟩
  · exact sigShape_error _

lemma sp500Signal1_shape (env : Env) : SigShape 30 TBool (sp500Signal1 env) := by
  unfold sp500Signal1
  apply sigShape_bind; intro vix
  apply sigShape_bind; intro lastE
  exact sigShape_emit _ _ _ _ ⟨_, rfl⟩

lemma sp500Signal2_shape (env : Env) : SigShape 25 TBool (sp500Signal2 env) := by
  unfold sp500Signal2
  apply sigShape_bind; intro tnxH
  apply sigShape_bind; intro tnxLast
  apply sigShape_bind; intro irxH
  apply sigShape_bind; intro irxLast
  exact sigShape_emit _ _ _ _ ⟨_, rfl⟩

lemma sp500Signal3_shape (sh : History) (cp : ℚ) : SigShape 20 TBool (sp500Signal3 sh cp) := by
  unfold sp500Signal3
  apply sigShape_bind; intro ma
  cases ma with
  | none => exact sigShape_error _
  | some m =>
    dsimp only
    split
    · exact sigShape_error _
    · exact sigShape_emit _ _ _ _ ⟨_, rfl⟩

lemma sp500Signal4_shape (env : Env) : SigShape 15 TBool (sp500Signal4 env) := by
  unfold sp500Signal4
  apply sigShape_bind; intro v1
  apply sigShape_bind; intro curE
  apply sigShape_bind; intro vLen
  dsimp only
  split
  · apply sigShape_bind; intro v2
    apply sigShape_bind; intro wkE
    apply sigShape_bind; intro y
    apply sigShape_bind; intro q
    exact sigShape_emit _ _ _ _ ⟨_, rfl⟩
  · apply sigShape_bind; intro y
    apply sigShape_bind; intro q
    exact sigShape_emit _ _ _ _ ⟨_, rfl⟩

lemma sp500Signal5_shape (env : Env) (sh : History) :
    SigShape 10 TBool (sp500Signal5 env sh) := by
  unfold sp500Signal5
  apply sigShape_bind; intro nh
  apply sigShape_bind; intro nLast
  apply sigShape_bind; intro nFirst
  apply sigShape_bind; intro q1
  dsimp only
  split
  · apply sigShape_bind; intro sLast
    apply sigShape_bind; intro sMo
    apply sigShape_bind; intro q2
    apply sigShape_bind; intro y
    exact sigShape_emit _ _ _ _ ⟨_, rfl⟩
  · apply sigShape_bind; intro y
    exact sigShape_emit _ _ _ _ ⟨_, rfl⟩

lemma nasdaqSignal1_shape (env : Env) : SigShape 30 TBool (nasdaqSignal1 env) := by
  unfold nasdaqSignal1
  apply sigShape_bind; intro vix
  apply sigShape_bind; intro lastE
  exact sigShape_emit _ _ _ _ ⟨_, rfl⟩

lemma nasdaqSignal2_shape (nh : History) (cp : ℚ) :
    SigShape 25 TBool (nasdaqSignal2 nh cp) := by
  unfold nasdaqSignal2
  apply sigShape_bind; intro ma
  cases ma with
  | none => exact sigShape_error _
  | some m =>
    dsimp only
    split
    · exact sigShape_error _
    · exact sigShape_emit _ _ _ _ ⟨_, rfl⟩

lemma nasdaqSignal3_shape (env : Env) : SigShape 20 TBool (nasdaqSignal3 env) := by
  unfold nasdaqSignal3
  apply sigShape_bind; intro tnx
  apply sigShape_bind; intro lastE
  dsimp only
  split
  · apply sigShape_bind; intro moE
    apply sigShape_bind; intro y
    exact sigShape_emit _ _ _ _ ⟨_, rfl⟩
  · apply sigShape_bind; intro y
    exact sigShape_emit _ _ _ _ ⟨_, rfl⟩

lemma nasdaqSignal4_shape (nh : History) (cp : ℚ) :
    SigShape 15 TBool (nasdaqSignal4 nh cp) := by
  unfold nasdaqSignal4
  dsimp only
  split
  · apply sigShape_bind; intro p60
    apply sigShape_bind; intro p30
    apply sigShape_bind; intro q1
    apply sigShape_bind; intro q2
    exact sigShape_emit _ _ _ _ ⟨_, rfl⟩
  · exact sigShape_error _

lemma nasdaqSignal5_shape (nh : History) : SigShape 10 TBool (nasdaqSignal5 nh) := by
  unfold nasdaqSignal5
  apply sigShape_bind; intro trig
  exact sigShape_emit _ _ _ _ ⟨_, rfl⟩

lemma btcSignal1_shape (bh : History) (cp : ℚ) : SigShape 30 TBool (btcSignal1 bh cp) := by
  unfold btcSignal1
  apply sigShape_bind; intro ma
  cases ma with
  | none => exact sigShape_error _
  | some m =>
    dsimp only
    split
    · exact sigShape_error _
    · exact sigShape_emit _ _ _ _ ⟨_, rfl⟩

lemma btcSignal2_shape (bh : History) : SigShape 25 TBool (btcSignal2 bh) := by
  unfold btcSignal2
  apply sigShape_bind; intro trig
  exact sigShape_emit _ _ _ _ ⟨_, rfl⟩

lemma btcSignal3_shape (bh : History) (cp : ℚ) : SigShape 20 TBool (btcSignal3 bh cp) := by
  unfold btcSignal3
  dsimp only
  split
  · apply sigShape_bind; intro p90
    apply sigShape_bind; intro p30
    apply sigShape_bind; intro q1
    apply sigShape_bind; intro q2
    exact sigShape_emit _ _ _ _ ⟨_, rfl⟩
  · exact sigShape_error _

lemma btcSignal4_shape (env : Env) (bh : History) :
    SigShape 15 TBool (btcSignal4 env bh) := by
  unfold btcSignal4
  apply sigShape_bind; intro nh
  dsimp only
  split
  · apply sigShape_bind; intro bLast
    apply sigShape_bind; intro bFirst
    apply sigShape_bind; intro q1
    apply sigShape_bind; intro nLast
    apply sigShape_bind; intro nFirst
    apply sigShape_bind; intro q2
    exact sigShape_emit _ _ _ _ ⟨_, rfl⟩
  · exact sigShape_error _

lemma btcSignal5_shape (bh : History) (cp : ℚ) : SigShape 10 TBool (btcSignal5 bh cp) := by
  unfold btcSignal5
  apply sigShape_bind; intro ath
  apply sigShape_bind; intro q
  exact sigShape_emit _ _ _ _ ⟨_, rfl⟩

/-! ### The try/except wrapper preserves the shape invariant -/

lemma trySignal_spec (n : String) (m : Nat) (T : PyVal → Prop) (hT : T (PyVal.bool false))
    (b : Except String (SignalResult × Nat)) (hb : SigShape m T b) :
    (trySignal n m b).2 = (trySignal n m b).1.points ∧
    (trySignal n m b).1.maxPoints = m ∧
    ((trySignal n m b).1.points = 0 ∨ (trySignal n m b).1.points = m) ∧
    T (trySignal n m b).1.triggered := by
  cases b with
  | error e =>
    refine ⟨rfl, rfl, Or.inl rfl, ?_⟩
    simpa [trySignal, fallbackSignal] using hT
  | ok rp =>
    obtain ⟨r, p⟩ := rp
    have h := hb r p rfl
    simpa [trySignal] using ⟨h.1, h.2.1, h.2.2.1, h.2.2.2⟩

/-! ### Per-barometer master lemmas -/

/-- Everything the invariant claims need about one produced barometer. -/
def BaroMaster (b : BarometerResult) (m1 m2 m3 m4 m5 : Nat) (T1 : PyVal → Prop)
    (lev : Nat → String × String) : Prop :=
  (∃ msg, b = BarometerResult.error msg) ∨
  ∃ s1 s2 s3 s4 s5 : SignalResult,
    b.signalsOf = [s1, s2, s3, s4, s5] ∧
    b.scoreOf = s1.points + s2.points + s3.points + s4.points + s5.points ∧
    s1.maxPoints = m1 ∧ s2.maxPoints = m2 ∧ s3.maxPoints = m3 ∧
    s4.maxPoints = m4 ∧ s5.maxPoints = m5 ∧
    (s1.points = 0 ∨ s1.points = m1) ∧ (s2.points = 0 ∨ s2.points = m2) ∧
    (s3.points = 0 ∨ s3.points = m3) ∧ (s4.points = 0 ∨ s4.points = m4) ∧
    (s5.points = 0 ∨ s5.points = m5) ∧
    T1 s1.triggered ∧ TBool s2.triggered ∧ TBool s3.triggered ∧
    TBool s4.triggered ∧ TBool s5.triggered ∧
    b.levelOf = (lev b.scoreOf).1

lemma tg1_false : TG1 (PyVal.bool false) := Or.inr (Or.inr ⟨false, rfl⟩)

lemma gold_master (env : Env) :
    BaroMaster (fetch_gold_barometer env) 30 25 15 15 15 TG1 goldLevelRec := by
  unfold BaroMaster
  cases hB : classBaseline env "GC=F" with
  | error e =>
    exact Or.inl ⟨"Failed to fetch gold data: " ++ e, by simp [fetch_gold_barometer, hB]⟩
  | ok pr =>
    obtain ⟨gh, cp⟩ := pr
    right
    have H1 := trySignal_spec "COT Positioning" 30 TG1 tg1_false _ (goldSignal1_shape env cp)
    have H2 := trySignal_spec "Real Yields" 25 TBool tbool_false _ (goldSignal2_shape env)
    have H3 := trySignal_spec "MA Deviation" 15 TBool tbool_false _ (goldSignal3_shape gh cp)
    have H4 := trySignal_spec "DXY Breakout" 15 TBool tbool_false _ (goldSignal4_shape env)
    have H5 := trySignal_spec "Sentiment" 15 TBool tbool_false _ (goldSignal5_shape gh)
    refine ⟨_, _, _, _, _, ?_, ?_, H1.2.1, H2.2.1, H3.2.1, H4.2.1, H5.2.1,
      H1.2.2.1, H2.2.2.1, H3.2.2.1, H4.2.2.1, H5.2.2.1,
      H1.2.2.2, H2.2.2.2, H3.2.2.2, H4.2.2.2, H5.2.2.2, ?_⟩
    · simp [fetch_gold_barometer, hB, BarometerResult.signalsOf]
    · simp [fetch_gold_barometer, hB, BarometerResult.scoreOf,
        H1.1, H2.1, H3.1, H4.1, H5.1]
    · simp [fetch_gold_barometer, hB, BarometerResult.levelOf, BarometerResult.scoreOf]

lemma sp500_master (env : Env) :
    BaroMaster (fetch_sp500_barometer env) 30 25 20 15 10 TBool sp500LevelRec := by
  unfold BaroMaster
  cases hB : classBaseline env "^GSPC" with
  | error e =>
    exact Or.inl ⟨"Failed to fetch S&P 500 data: " ++ e, by simp [fetch_sp500_barometer, hB]⟩
  | ok pr =>
    obtain ⟨sh, cp⟩ := pr
    right
    have H1 := trySignal_spec "VIX Level" 30 TBool tbool_false _ (sp500Signal1_shape env)
    have H2 := trySignal_spec "Yield Curve" 25 TBool tbool_false _ (sp500Signal2_shape env)
    have H3 := trySignal_spec "MA Deviation" 20 TBool tbool_false _ (sp500Signal3_shape sh cp)
    have H4 := trySignal_spec "Put/Call Ratio" 15 TBool tbool_false _ (sp500Signal4_shape env)
    have H5 := trySignal_spec "Market Breadth" 10 TBool tbool_false _ (sp500Signal5_shape env sh)
    refine ⟨_, _, _, _, _, ?_, ?_, H1.2.1, H2.2.1, H3.2.1, H4.2.1, H5.2.1,
      H1.2.2.1, H2.2.2.1, H3.2.2.1, H4.2.2.1, H5.2.2.1,
      H1.2.2.2, H2.2.2.2, H3.2.2.2, H4.2.2.2, H5.2.2.2, ?_⟩
    · simp [fetch_sp500_barometer, hB, BarometerResult.signalsOf]
    · simp [fetch_sp500_barometer, hB, BarometerResult.scoreOf,
        H1.1, H2.1, H3.1, H4.1, H5.1]
    · simp [fetch_sp500_barometer, hB, BarometerResult.levelOf, BarometerResult.scoreOf]

lemma nasdaq_master (env : Env) :
    BaroMaster (fetch_nasdaq_barometer env) 30 25 20 15 10 TBool nasdaqLevelRec := by
  unfold BaroMaster
  cases hB : classBaseline env "^IXIC" with
  | error e =>
    exact Or.inl ⟨"Failed to fetch Nasdaq data: " ++ e, by simp [fetch_nasdaq_barometer, hB]⟩
  | ok pr =>
    obtain ⟨nh, cp⟩ := pr
    right
    have H1 := trySignal_spec "VIX Level" 30 TBool tbool_false _ (nasdaqSignal1_shape env)
    have H2 := trySignal_spec "MA Deviation" 25 TBool tbool_false _ (nasdaqSignal2_shape nh cp)
    have H3 := trySignal_spec "Rate Sensitivity" 20 TBool tbool_false _ (nasdaqSignal3_shape env)
    have H4 := trySignal_spec "Momentum" 15 TBool tbool_false _ (nasdaqSignal4_shape nh cp)
    have H5 := trySignal_spec "Volatility" 10 TBool tbool_false _ (nasdaqSignal5_shape nh)
    refine ⟨_, _, _, _, _, ?_, ?_, H1.2.1, H2.2.1, H3.2.1, H4.2.1, H5.2.1,
      H1.2.2.1, H2.2.2.1, H3.2.2.1, H4.2.2.1, H5.2.2.1,
      H1.2.2.2, H2.2.2.2, H3.2.2.2, H4.2.2.2, H5.2.2.2, ?_⟩
    · simp [fetch_nasdaq_barometer, hB, BarometerResult.signalsOf]
    · simp [fetch_nasdaq_barometer, hB, BarometerResult.scoreOf,
        H1.1, H2.1, H3.1, H4.1, H5.1]
    · simp [fetch_nasdaq_barometer, hB, BarometerResult.levelOf, BarometerResult.scoreOf]

lemma bitcoin_master (env : Env) :
    BaroMaster (fetch_bitcoin_barometer env) 30 25 20 15 10 TBool bitcoinLevelRec := by
  unfold BaroMaster
  cases hB : classBaseline env "BTC-USD" with
  | error e =>
    exact Or.inl ⟨"Failed to fetch Bitcoin data: " ++ e, by simp [fetch_bitcoin_barometer, hB]⟩
  | ok pr =>
    obtain ⟨bh, cp⟩ := pr
    right
    have H1 := trySignal_spec "MA Deviation" 30 TBool tbool_false _ (btcSignal1_shape bh cp)
    have H2 := trySignal_spec "Volatility" 25 TBool tbool_false _ (btcSignal2_shape bh)
    have H3 := trySignal_spec "Momentum" 20 TBool tbool_false _ (btcSignal3_shape bh cp)
    have H4 := trySignal_spec "Correlation" 15 TBool tbool_false _ (btcSignal4_shape env bh)
    have H5 := trySignal_spec "Drawdown" 10 TBool tbool_false _ (btcSignal5_shape bh cp)
    refine ⟨_, _, _, _, _, ?_, ?_, H1.2.1, H2.2.1, H3.2.1, H4.2.1, H5.2.1,
      H1.2.2.1, H2.2.2.1, H3.2.2.1, H4.2.2.1, H5.2.2.1,
      H1.2.2.2, H2.2.2.2, H3.2.2.2, H4.2.2.2, H5.2.2.2, ?_⟩
    · simp [fetch_bitcoin_barometer, hB, BarometerResult.signalsOf]
    · simp [fetch_bitcoin_barometer, hB, BarometerResult.scoreOf,
        H1.1, H2.1, H3.1, H4.1, H5.1]
    · simp [fetch_bitcoin_barometer, hB, BarometerResult.levelOf, BarometerResult.scoreOf]

/-! ### Level mapping and market-main helper lemmas -/

lemma levelOKAt_mk (a b c d : String) :
    levelOKAt (fun s =>
      if s ≤ 30 then ("LOW", a)
      else if s ≤ 50 then ("CAUTION", b)
      else if s ≤ 70 then ("WARNING", c)
      else ("DANGER", d)) := by
  intro s
  dsimp only
  refine ⟨?_, ?_, ?_, ?_⟩ <;> split_ifs with h1 h2 h3 <;> simp_all <;> omega

lemma market_fold_count (env : MDEnv) (syms : List String)
    (acc : List (String × AssetEntry)) (k : Nat) :
    (syms.foldl (market_step env) (acc, k)).2 =
      k + syms.countP (fun s => isOkE (fetch_symbol env s)) := by
  induction syms generalizing acc k with
  | nil => simp
  | cons s ss ih =>
    simp only [List.foldl_cons, List.countP_cons]
    cases hfs : fetch_symbol env s with
    | ok v =>
      rw [market_step]
      simp only [hfs]
      rw [ih]
      simp [isOkE, hfs]
      omega
    | error e =>
      rw [market_step]
      simp only [hfs]
      rw [ih]
      simp [isOkE, hfs]

lemma baroInv_of_master (b : BarometerResult) (m1 m2 m3 m4 m5 : Nat)
    (T1 : PyVal → Prop) (lev : Nat → String × String)
    (h : BaroMaster b m1 m2 m3 m4 m5 T1 lev)
    (hsum : m1 + m2 + m3 + m4 + m5 = 100) : BaroInv b := by
  rcases h with ⟨msg, hm⟩ |
    ⟨s1, s2, s3, s4, s5, hsig, hsc, hm1, hm2, hm3, hm4, hm5,
      hp1, hp2, hp3, hp4, hp5, -, -, -, -, -, -⟩
  · left; simp [hm, BarometerResult.isErr]
  · right
    refine ⟨by simp [hsig], ?_, by simp [hsig, hsc]; omega, Nat.zero_le _, ?_⟩
    · simp only [hsig, List.map_cons, List.map_nil, List.sum_cons, List.sum_nil]
      rw [hm1, hm2, hm3, hm4, hm5]
      omega
    · rw [hsc]
      omega

lemma shape_of_master (b : BarometerResult) (m1 m2 m3 m4 m5 : Nat)
    (T1 : PyVal → Prop) (lev : Nat → String × String)
    (h : BaroMaster b m1 m2 m3 m4 m5 T1 lev) :
    (∀ r ∈ b.signalsOf, r.points = 0 ∨ r.points = r.maxPoints) ∧
    (∀ r ∈ b.signalsOf.drop 1, TBool r.triggered) ∧
    (∀ r ∈ b.signalsOf.take 1, T1 r.triggered) := by
  rcases h with ⟨msg, hm⟩ |
    ⟨s1, s2, s3, s4, s5, hsig, -, hm1, hm2, hm3, hm4, hm5,
      hp1, hp2, hp3, hp4, hp5, ht1, ht2, ht3, ht4, ht5, -⟩
  · simp [hm, BarometerResult.signalsOf]
  · rw [hsig]
    refine ⟨?_, ?_, ?_⟩
    · intro r hr
      simp only [List.mem_cons, List.not_mem_nil, or_false] at hr
      rcases hr with rfl | rfl | rfl | rfl | rfl
      · rw [hm1]; exact hp1
      · rw [hm2]; exact hp2
      · rw [hm3]; exact hp3
      · rw [hm4]; exact hp4
      · rw [hm5]; exact hp5
    · intro r hr
      simp only [List.drop_succ_cons, List.drop_zero, List.mem_cons,
        List.not_mem_nil, or_false] at hr
      rcases hr with rfl | rfl | rfl | rfl
      · exact ht2
      · exact ht3
      · exact ht4
      · exact ht5
    · intro r hr
      simp only [List.take_succ_cons, List.take_zero, List.mem_cons,
        List.not_mem_nil, or_false] at hr
      rcases hr with rfl
      exact ht1

lemma levelOf_of_master (b : BarometerResult) (m1 m2 m3 m4 m5 : Nat)
    (T1 : PyVal → Prop) (lev : Nat → String × String)
    (h : BaroMaster b m1 m2 m3 m4 m5 T1 lev) :
    b.isErr = true ∨ b.levelOf = (lev b.scoreOf).1 := by
  rcases h with ⟨msg, hm⟩ |
    ⟨s1, s2, s3, s4, s5, -, -, -, -, -, -, -, -, -, -, -, -, -, -, -, -, -, hlev⟩
  · left; simp [hm, BarometerResult.isErr]
  · right; exact hlev

/-- C1: for every barometer level mapping, the level is LOW iff the score is
at most 30, CAUTION iff it is between 31 and 50, WARNING iff between 51 and
70, and DANGER iff at least 71; in particular the boundary scores 30, 31, 50,
51, 70, 71 map to LOW, CAUTION, CAUTION, WARNING, WARNING, DANGER; and every
non-error barometer result carries exactly the level its own mapping assigns
to its score. -/
theorem level_thresholds :
    (levelOKAt goldLevelRec ∧ levelOKAt sp500LevelRec ∧
      levelOKAt nasdaqLevelRec ∧ levelOKAt bitcoinLevelRec) ∧
    ((goldLevelRec 30).1 = "LOW" ∧ (goldLevelRec 31).1 = "CAUTION" ∧
      (goldLevelRec 50).1 = "CAUTION" ∧ (goldLevelRec 51).1 = "WARNING" ∧
      (goldLevelRec 70).1 = "WARNING" ∧ (goldLevelRec 71).1 = "DANGER") ∧
    ((sp500LevelRec 30).1 = "LOW" ∧ (sp500LevelRec 31).1 = "CAUTION" ∧
      (sp500LevelRec 50).1 = "CAUTION" ∧ (sp500LevelRec 51).1 = "WARNING" ∧
      (sp500LevelRec 70).1 = "WARNING" ∧ (sp500LevelRec 71).1 = "DANGER") ∧
    ((nasdaqLevelRec 30).1 = "LOW" ∧ (nasdaqLevelRec 31).1 = "CAUTION" ∧
      (nasdaqLevelRec 50).1 = "CAUTION" ∧ (nasdaqLevelRec 51).1 = "WARNING" ∧
      (nasdaqLevelRec 70).1 = "WARNING" ∧ (nasdaqLevelRec 71).1 = "DANGER") ∧
    ((bitcoinLevelRec 30).1 = "LOW" ∧ (bitcoinLevelRec 31).1 = "CAUTION" ∧
      (bitcoinLevelRec 50).1 = "CAUTION" ∧ (bitcoinLevelRec 51).1 = "WARNING" ∧
      (bitcoinLevelRec 70).1 = "WARNING" ∧ (bitcoinLevelRec 71).1 = "DANGER") ∧
    (∀ env : Env,
      ((fetch_gold_barometer env).isErr = true ∨
        (fetch_gold_barometer env).levelOf =
          (goldLevelRec (fetch_gold_barometer env).scoreOf).1) ∧
      ((fetch_sp500_barometer env).isErr = true ∨
        (fetch_sp500_barometer env).levelOf =
          (sp500LevelRec (fetch_sp500_barometer env).scoreOf).1) ∧
      ((fetch_nasdaq_barometer env).isErr = true ∨
        (fetch_nasdaq_barometer env).levelOf =
          (nasdaqLevelRec (fetch_nasdaq_barometer env).scoreOf).1) ∧
      ((fetch_bitcoin_barometer env).isErr = true ∨
        (fetch_bitcoin_barometer env).levelOf =
          (bitcoinLevelRec (fetch_bitcoin_barometer env).scoreOf).1)) := by
  refine ⟨⟨levelOKAt_mk _ _ _ _, levelOKAt_mk _ _ _ _,
    levelOKAt_mk _ _ _ _, levelOKAt_mk _ _ _ _⟩, ?_, ?_, ?_, ?_, ?_⟩
  case _ => refine ⟨?_, ?_, ?_, ?_, ?_, ?_⟩ <;> norm_num [goldLevelRec]
  case _ => refine ⟨?_, ?_, ?_, ?_, ?_, ?_⟩ <;> norm_num [sp500LevelRec]
  case _ => refine ⟨?_, ?_, ?_, ?_, ?_, ?_⟩ <;> norm_num [nasdaqLevelRec]
  case _ => refine ⟨?_, ?_, ?_, ?_, ?_, ?_⟩ <;> norm_num [bitcoinLevelRec]
  case _ =>
    intro env
    exact ⟨levelOf_of_master _ 30 25 15 15 15 TG1 goldLevelRec (gold_master env),
      levelOf_of_master _ 30 25 20 15 10 TBool sp500LevelRec (sp500_master env),
      levelOf_of_master _ 30 25 20 15 10 TBool nasdaqLevelRec (nasdaq_master env),
      levelOf_of_master _ 30 25 20 15 10 TBool bitcoinLevelRec (bitcoin_master env)⟩

/-- C2: for every fetch environment, each of the four barometer results is
either an error record or has exactly 5 signals whose maxPoints sum to 100,
with the score equal to the sum of the awarded points and between 0 and
100. -/
theorem barometer_invariants (env : Env) :
    BaroInv (fetch_gold_barometer env) ∧ BaroInv (fetch_sp500_barometer env) ∧
    BaroInv (fetch_nasdaq_barometer env) ∧ BaroInv (fetch_bitcoin_barometer env) := by
  refine ⟨?_, ?_, ?_, ?_⟩
  · exact baroInv_of_master _ 30 25 15 15 15 TG1 goldLevelRec (gold_master env)
      (by norm_num)
  · exact baroInv_of_master _ 30 25 20 15 10 TBool sp500LevelRec (sp500_master env)
      (by norm_num)
  · exact baroInv_of_master _ 30 25 20 15 10 TBool nasdaqLevelRec (nasdaq_master env)
      (by norm_num)
  · exact baroInv_of_master _ 30 25 20 15 10 TBool bitcoinLevelRec (bitcoin_master env)
      (by norm_num)

/-- C3: if the fetch of an asset class's own 1-year baseline history raises,
that barometer returns only an error record with message
`Failed to fetch <class> data: <cause>` (the error constructor carries no
score, level, or signals), and the main loop still records all four classes,
each evaluated independently of the others. -/
theorem baseline_failure_isolated (env : Env) (e1 e2 e3 e4 : String) :
    (env "GC=F" "1y" = Except.error e1 →
      fetch_gold_barometer env =
        BarometerResult.error ("Failed to fetch gold data: " ++ e1)) ∧
    (env "^GSPC" "1y" = Except.error e2 →
      fetch_sp500_barometer env =
        BarometerResult.error ("Failed to fetch S&P 500 data: " ++ e2)) ∧
    (env "^IXIC" "1y" = Except.error e3 →
      fetch_nasdaq_barometer env =
        BarometerResult.error ("Failed to fetch Nasdaq data: " ++ e3)) ∧
    (env "BTC-USD" "1y" = Except.error e4 →
      fetch_bitcoin_barometer env =
        BarometerResult.error ("Failed to fetch Bitcoin data: " ++ e4)) ∧
    run_risk_barometer env =
      [ ("gold", fetch_gold_barometer env), ("sp500", fetch_sp500_barometer env),
        ("nasdaq", fetch_nasdaq_barometer env),
        ("bitcoin", fetch_bitcoin_barometer env) ] := by
  refine ⟨?_, ?_, ?_, ?_, rfl⟩ <;> intro h <;>
    simp [fetch_gold_barometer, fetch_sp500_barometer, fetch_nasdaq_barometer,
      fetch_bitcoin_barometer, classBaseline, h, Bind.bind, Except.bind]

/-- Witness for C3 at a concrete environment in which every fetch raises
`network down`. -/
theorem baseline_failure_isolated_witness :
    fetch_gold_barometer envFail =
      BarometerResult.error "Failed to fetch gold data: network down" ∧
    fetch_sp500_barometer envFail =
      BarometerResult.error "Failed to fetch S&P 500 data: network down" ∧
    fetch_nasdaq_barometer envFail =
      BarometerResult.error "Failed to fetch Nasdaq data: network down" ∧
    fetch_bitcoin_barometer envFail =
      BarometerResult.error "Failed to fetch Bitcoin data: network down" := by
  have h := baseline_failure_isolated envFail "network down" "network down"
    "network down" "network down"
  exact ⟨h.1 rfl, h.2.1 rfl, h.2.2.1 rfl, h.2.2.2.1 rfl⟩

/-- C8 (amended): every signal produced by any barometer awards either 0 or
exactly its maxPoints; the `triggered` field is a bool in every signal except
the gold COT proxy signal (the first gold signal), where it is a bool, `None`,
or the float `0.0`. -/
theorem signal_fields_shape (env : Env) :
    ((∀ r ∈ (fetch_gold_barometer env).signalsOf,
        r.points = 0 ∨ r.points = r.maxPoints) ∧
      (∀ r ∈ (fetch_gold_barometer env).signalsOf.drop 1, TBool r.triggered) ∧
      (∀ r ∈ (fetch_gold_barometer env).signalsOf.take 1, TG1 r.triggered)) ∧
    ((∀ r ∈ (fetch_sp500_barometer env).signalsOf,
        r.points = 0 ∨ r.points = r.maxPoints) ∧
      (∀ r ∈ (fetch_sp500_barometer env).signalsOf, TBool r.triggered)) ∧
    ((∀ r ∈ (fetch_nasdaq_barometer env).signalsOf,
        r.points = 0 ∨ r.points = r.maxPoints) ∧
      (∀ r ∈ (fetch_nasdaq_barometer env).signalsOf, TBool r.triggered)) ∧
    ((∀ r ∈ (fetch_bitcoin_barometer env).signalsOf,
        r.points = 0 ∨ r.points = r.maxPoints) ∧
      (∀ r ∈ (fetch_bitcoin_barometer env).signalsOf, TBool r.triggered)) := by
  have hg := shape_of_master _ 30 25 15 15 15 TG1 goldLevelRec (gold_master env)
  have hs := shape_of_master _ 30 25 20 15 10 TBool sp500LevelRec (sp500_master env)
  have hn := shape_of_master _ 30 25 20 15 10 TBool nasdaqLevelRec (nasdaq_master env)
  have hb := shape_of_master _ 30 25 20 15 10 TBool bitcoinLevelRec (bitcoin_master env)
  have hsplit : ∀ (l : List SignalResult) (r : SignalResult), r ∈ l →
      r ∈ l.take 1 ∨ r ∈ l.drop 1 := by
    intro l r hr
    rw [← List.take_append_drop 1 l] at hr
    exact List.mem_append.mp hr
  refine ⟨⟨hg.1, hg.2.1, hg.2.2⟩, ⟨hs.1, ?_⟩, ⟨hn.1, ?_⟩, ⟨hb.1, ?_⟩⟩ <;> intro r hr
  · rcases hsplit _ r hr with hmem | hmem
    · exact hs.2.2 r hmem
    · exact hs.2.1 r hmem
  · rcases hsplit _ r hr with hmem | hmem
    · exact hn.2.2 r hmem
    · exact hn.2.1 r hmem
  · rcases hsplit _ r hr with hmem | hmem
    · exact hb.2.2 r hmem
    · exact hb.2.1 r hmem

set_option maxRecDepth 8000 in
/-- C8 counterexample: with gold at 5 while the 5-year weekly samples sit at
10, the COT percentile is `0.0` and the first gold signal stores the float
`0.0` in `triggered`, which is not a boolean. -/
theorem triggered_not_boolean_cx :
    ((fetch_gold_barometer envCotZero).signalsOf.head?).map SignalResult.triggered =
      Option.some (PyVal.float 0) ∧
    PyVal.float 0 ≠ PyVal.bool true ∧ PyVal.float 0 ≠ PyVal.bool false := by
  refine ⟨?_, by decide, by decide⟩
  simp +decide [fetch_gold_barometer, classBaseline, envCotZero, goldSignal1,
    goldSignal2, goldSignal3, goldSignal4, goldSignal5, trySignal, fallbackSignal,
    emit, pyNegIdx, pyIdx0, pyLastN, pyEveryNth, everyNthAux, pyMean, pyVarSample,
    pyDiv, pyMax, relVolGT, calculate_ma, percentile_rank,
    BarometerResult.signalsOf, Except.bind, bind, pure, Except.pure, PyVal.truthy,
    fmtQ, pyTrunc, List.insertionSort, List.orderedInsert, List.countP_cons]

set_option maxRecDepth 8000 in
/-- Witness for C8 (amended) at the same concrete environment: the first gold
signal is in the allowed bool-or-falsy family. -/
theorem signal_fields_shape_witness : TG1 (PyVal.float 0) := by
  have h := (signal_fields_shape envCotZero).1.2.2
  have hmem : (⟨"COT Positioning (Proxy)", PyVal.float 0, 0, 30, "Unavailable"⟩ :
      SignalResult) ∈ (fetch_gold_barometer envCotZero).signalsOf.take 1 := by
    simp +decide [fetch_gold_barometer, classBaseline, envCotZero, goldSignal1,
      goldSignal2, goldSignal3, goldSignal4, goldSignal5, trySignal, fallbackSignal,
      emit, pyNegIdx, pyIdx0, pyLastN, pyEveryNth, everyNthAux, pyMean, pyVarSample,
      pyDiv, pyMax, relVolGT, calculate_ma, percentile_rank,
      BarometerResult.signalsOf, Except.bind, bind, pure, Except.pure, PyVal.truthy,
      fmtQ, pyTrunc, List.insertionSort, List.orderedInsert, List.countP_cons]
  exact h _ hmem

/-- C5 (amended): `percentile_rank` uses strictly-less-than semantics: on a
nonempty population the rank is `100 *` the count of members strictly below
the value over the population size (so ties are not counted as below); the
rank of a value less than or equal to every member is 0; the rank of a value
strictly greater than every member (in particular greater than the maximum)
is 100, not `100 * (n - 1) / n`; the result is `None` for a `None` value or
an empty population. -/
theorem percentile_rank_strict (v : ℚ) (pop : List ℚ) (hne : pop ≠ []) :
    percentile_rank (Option.some v) pop =
      Option.some (((pop.countP (fun x => decide (x < v)) : ℚ)) /
        (pop.length : ℚ) * 100) ∧
    ((∀ x ∈ pop, v ≤ x) → percentile_rank (Option.some v) pop = Option.some 0) ∧
    ((∀ x ∈ pop, x < v) → percentile_rank (Option.some v) pop = Option.some 100) ∧
    percentile_rank Option.none pop = Option.none ∧
    (∀ w : Option ℚ, percentile_rank w [] = Option.none) := by
  have hperm := List.perm_insertionSort (fun x1 x2 => x1 ≤ x2) pop
  have hcnt : ∀ p : ℚ → Bool,
      (pop.insertionSort (fun x1 x2 => x1 ≤ x2)).countP p = pop.countP p :=
    fun p => hperm.countP_eq p
  have hlen : (pop.insertionSort (fun x1 x2 => x1 ≤ x2)).length = pop.length :=
    hperm.length_eq
  have hmain : percentile_rank (Option.some v) pop =
      Option.some (((pop.countP (fun x => decide (x < v)) : ℚ)) /
        (pop.length : ℚ) * 100) := by
    simp [percentile_rank, hne, hcnt, hlen]
  refine ⟨hmain, ?_, ?_, by simp [percentile_rank], by intro w; simp [percentile_rank]⟩
  · intro hmin
    rw [hmain]
    have h0 : pop.countP (fun x => decide (x < v)) = 0 := by
      rw [List.countP_eq_zero]
      intro a ha
      simpa using not_lt.mpr (hmin a ha)
    rw [h0]
    norm_num
  · intro hmax
    rw [hmain]
    have hall : pop.countP (fun x => decide (x < v)) = pop.length := by
      rw [List.countP_eq_length]
      intro a ha
      simpa using hmax a ha
    rw [hall]
    have hlen0 : (pop.length : ℚ) ≠ 0 := by
      have hp := List.length_pos.mpr hne
      exact_mod_cast Nat.pos_iff_ne_zero.mp hp
    rw [div_self hlen0]
    norm_num

/-- C5 counterexample: for the population `[1, 2, 3]` and the value 4
(strictly greater than the maximum), the rank is 100, not
`100 * (n - 1) / n = 200 / 3`. -/
theorem percentile_rank_above_max_cx :
    percentile_rank (Option.some 4) [1, 2, 3] = Option.some 100 ∧
    (100 : ℚ) ≠ 100 * (3 - 1) / 3 := by
  constructor
  · simp +decide [percentile_rank, List.insertionSort, List.orderedInsert,
      List.countP_cons]
  · norm_num

/-- Witness for C5 (amended): the value 1 equals the minimum of `[1, 2]` and
gets rank 0. -/
theorem percentile_rank_strict_witness :
    percentile_rank (Option.some 1) [1, 2] = Option.some 0 := by
  have h := percentile_rank_strict 1 [1, 2] (by simp)
  exact h.2.1 (by intro x hx; fin_cases hx <;> norm_num)

/-- C6 (amended): for every period at least 1, `calculate_ma` returns the
arithmetic mean of exactly the last `period` closes when the series has at
least `period` points, returns `None` when the series is shorter, and never
raises (at the degenerate `period = 0` the code instead averages the whole
series, raising on an empty one). -/
theorem calculate_ma_spec (h : History) (period : Nat) (hp : 1 ≤ period) :
    (h.length < period → calculate_ma h period = Except.ok Option.none) ∧
    (period ≤ h.length →
      calculate_ma h period =
        Except.ok (Option.some (((pyLastN h period).map Prod.snd).sum /
          (((pyLastN h period).map Prod.snd).length : ℚ))) ∧
      ((pyLastN h period).map Prod.snd).length = period) ∧
    (∀ e : String, calculate_ma h period ≠ Except.error e) := by
  have hlen : period ≤ h.length → ((pyLastN h period).map Prod.snd).length = period := by
    intro hle
    have hper : ¬ period = 0 := by omega
    simp [pyLastN, hper]
    omega
  have hnone : h.length < period → calculate_ma h period = Except.ok Option.none := by
    intro hlt
    simp [calculate_ma, hlt]
  have hsome : period ≤ h.length →
      calculate_ma h period =
        Except.ok (Option.some (((pyLastN h period).map Prod.snd).sum /
          (((pyLastN h period).map Prod.snd).length : ℚ))) := by
    intro hle
    have hL := hlen hle
    have hnil : (pyLastN h period).map Prod.snd ≠ [] := by
      intro hn
      rw [hn] at hL
      simp at hL
      omega
    have hemp : ((pyLastN h period).map Prod.snd).isEmpty = false := by
      simpa [List.isEmpty_iff] using hnil
    simp [calculate_ma, Nat.not_lt.mpr hle, pyMean, hemp, Bind.bind, Except.bind,
      pure, Except.pure]
  refine ⟨hnone, fun hle => ⟨hsome hle, hlen hle⟩, ?_⟩
  intro e
  by_cases hlt : h.length < period
  · rw [hnone hlt]; simp
  · rw [hsome (Nat.not_lt.mp hlt)]; simp

/-- C6 counterexample: at period 0 on an empty series `calculate_ma` raises
(Python `statistics.mean` of the empty slice `history[-0:]`), so over "every
period" the function does crash. -/
theorem calculate_ma_zero_period_cx :
    calculate_ma [] 0 = Except.error "mean requires at least one data point" := by
  simp [calculate_ma, pyLastN, pyMean, Bind.bind, Except.bind]

/-- Witness for C6 (amended): period 2 on a 2-point series averages the two
closes; period 2 on a 1-point series yields `None`. -/
theorem calculate_ma_spec_witness :
    calculate_ma [(0, 1), (1, 3)] 2 = Except.ok (Option.some 2) ∧
    calculate_ma [(0, 1)] 2 = Except.ok Option.none := by
  constructor
  · have h := ((calculate_ma_spec [(0, 1), (1, 3)] 2 (by norm_num)).2.1 (by norm_num)).1
    rw [h]
    norm_num [pyLastN]
  · exact (calculate_ma_spec [(0, 1)] 2 (by norm_num)).1 (by norm_num)

/-- C7 (amended): in the Bitcoin drawdown signal with a nonzero all-time
high, the signal triggers and awards its 10 points exactly when the drawdown
is strictly below −30%; a drawdown of exactly −30% (final price exactly 30%
below the series maximum) does not trigger and awards 0, while −30.01%
triggers. -/
theorem drawdown_strict_boundary (bh : History) (cp ath : ℚ)
    (hath : pyMax (bh.map Prod.snd) = Except.ok ath) (hnz : ath ≠ 0) :
    ∃ r : SignalResult, btcSignal5 bh cp = Except.ok (r, r.points) ∧
      r.maxPoints = 10 ∧
      r.triggered = PyVal.bool (decide ((cp - ath) / ath * 100 < -30)) ∧
      r.points = (if (cp - ath) / ath * 100 < -30 then 10 else 0) ∧
      ((cp - ath) / ath * 100 = -30 →
        r.triggered = PyVal.bool false ∧ r.points = 0) := by
  refine ⟨⟨"Drawdown from ATH", PyVal.bool (decide ((cp - ath) / ath * 100 < -30)),
    if (cp - ath) / ath * 100 < -30 then 10 else 0, 10,
    fmtQ ((cp - ath) / ath * 100) ++ "% from all-time high"⟩, ?_, rfl, rfl, rfl, ?_⟩
  · unfold btcSignal5
    rw [hath]
    simp [pyDiv, hnz, Bind.bind, Except.bind, pure, Except.pure, emit]
  · intro h30
    simp only [h30]
    norm_num

/-- C7 counterexample: for the series `[(0, 1000), (1, 700)]` the final price
700 is exactly 30% below the maximum 1000, yet the drawdown signal does not
trigger and awards 0 points (the condition is strictly `< -30`). -/
theorem drawdown_exact_thirty_cx :
    (btcSignal5 [(0, 1000), (1, 700)] 700).toOption.map
      (fun rp => (rp.1.triggered, rp.1.points)) =
      Option.some (PyVal.bool false, 0) := by
  have hm : (1000 : ℚ) ⊔ 700 = 1000 := max_eq_left (by norm_num)
  simp +decide [btcSignal5, pyMax, pyDiv, emit, Bind.bind, Except.bind, pure,
    Except.pure, Except.toOption, fmtQ, hm]
  norm_num

/-- Witness for C7 (amended): a final price 30.01% below the maximum
triggers the signal with 10 points. -/
theorem drawdown_strict_boundary_witness :
    ∃ r : SignalResult,
      btcSignal5 [(0, 10000), (1, 6999)] 6999 = Except.ok (r, r.points) ∧
      r.triggered = PyVal.bool true ∧ r.points = 10 := by
  obtain ⟨r, h1, h2, h3, h4, h5⟩ :=
    drawdown_strict_boundary [(0, 10000), (1, 6999)] 6999 10000
      (by simp [pyMax, max_eq_left (by norm_num : (6999 : ℚ) ≤ 10000)])
      (by norm_num)
  refine ⟨r, h1, ?_, ?_⟩
  · rw [h3]
    norm_num
  · rw [h4]
    norm_num

lemma pyTrunc_length_le (s : String) (n : Nat) : (pyTrunc s n).length ≤ n := by
  have h : (pyTrunc s n).length = (s.data.take n).length := rfl
  rw [h, List.length_take]
  omega

set_option maxRecDepth 8000 in
/-- C4 (amended): an exception raised inside a signal body is caught at the
signal boundary and becomes a SignalResult with `triggered = False`,
`points = 0`, the signal's fixed maxPoints, and a detail string consisting of
the fixed prefix `Data unavailable: ` followed by the exception text
truncated to 50 characters — hence a detail of at most 68 characters (not at
most 50); the signal contributes 0 to the score and nothing else changes. -/
theorem signal_exception_contained (n : String) (m : Nat) (e : String)
    (body : Except String (SignalResult × Nat)) (hb : body = Except.error e) :
    trySignal n m body = (fallbackSignal n m e, 0) ∧
    (fallbackSignal n m e).triggered = PyVal.bool false ∧
    (fallbackSignal n m e).points = 0 ∧
    (fallbackSignal n m e).maxPoints = m ∧
    (fallbackSignal n m e).detail = "Data unavailable: " ++ pyTrunc e 50 ∧
    (fallbackSignal n m e).detail.length ≤ 68 := by
  subst hb
  refine ⟨rfl, rfl, rfl, rfl, rfl, ?_⟩
  have h18 : ("Data unavailable: " : String).length = 18 := by decide
  have hlen : (fallbackSignal n m e).detail.length = 18 + (pyTrunc e 50).length := by
    simp [fallbackSignal, String.length_append, h18]
  have htr := pyTrunc_length_le e 50
  omega

set_option maxRecDepth 8000 in
/-- C4 counterexample: with a 50-character exception text, the fallback
detail of the gold Real-Yields signal is 68 characters long, exceeding the
claimed 50-character bound. -/
theorem detail_length_cx :
    ((fetch_gold_barometer envC4).signalsOf.drop 1).head? =
      Option.some (fallbackSignal "Real Yields" 25 msg50) ∧
    (fallbackSignal "Real Yields" 25 msg50).detail.length = 68 ∧ ¬ (68 ≤ 50) := by
  refine ⟨?_, by decide, by omega⟩
  simp +decide [fetch_gold_barometer, classBaseline, envC4, msg50, goldSignal1,
    goldSignal2, goldSignal3, goldSignal4, goldSignal5, trySignal, emit, pyNegIdx,
    pyIdx0, pyLastN, pyEveryNth, everyNthAux, pyMean, pyVarSample, pyDiv, pyMax,
    relVolGT, calculate_ma, percentile_rank, BarometerResult.signalsOf, Except.bind,
    bind, pure, Except.pure, PyVal.truthy, fmtQ, List.insertionSort,
    List.orderedInsert, List.countP_cons]

/-- Witness for C4 (amended) at a concrete raised message. -/
theorem signal_exception_contained_witness :
    trySignal "VIX Level" 30 (Except.error "boom") =
      (fallbackSignal "VIX Level" 30 "boom", 0) ∧
    (fallbackSignal "VIX Level" 30 "boom").detail.length ≤ 68 := by
  have h := signal_exception_contained "VIX Level" 30 "boom" (Except.error "boom") rfl
  exact ⟨h.1, h.2.2.2.2.2⟩

/-- C9 (amended): the market-data pipeline exits with status 1 iff zero
symbols succeeded and with status 0 iff at least one succeeded; the
risk-barometer pipeline exits 0 whenever its main loop completes, regardless
of how many asset classes failed (a nonzero exit there comes only from the
top-level interrupt/exception handlers, never from failed entities). -/
theorem exit_codes (env : MDEnv) (benv : Env) :
    (market_exit env = 1 ↔
      SYMBOLS.countP (fun s => isOkE (fetch_symbol env s)) = 0) ∧
    (market_exit env = 0 ↔
      0 < SYMBOLS.countP (fun s => isOkE (fetch_symbol env s))) ∧
    risk_barometer_exit benv = 0 := by
  have h := market_fold_count env SYMBOLS [] 0
  have hex : market_exit env =
      if SYMBOLS.countP (fun s => isOkE (fetch_symbol env s)) = 0 then 1 else 0 := by
    unfold market_exit market_main
    rw [h]
    simp
  refine ⟨?_, ?_, rfl⟩
  · rw [hex]
    by_cases h0 : SYMBOLS.countP (fun s => isOkE (fetch_symbol env s)) = 0
    · rw [if_pos h0]
      simp [h0]
    · rw [if_neg h0]
      simp [h0]
  · rw [hex]
    by_cases h0 : SYMBOLS.countP (fun s => isOkE (fetch_symbol env s)) = 0
    · rw [if_pos h0]
      simp [h0]
    · rw [if_neg h0]
      simp only [true_iff, eq_self_iff_true]
      omega

/-- C9 counterexample: with every fetch failing, all four asset classes of
the risk barometer fail, yet the run completes and the process exits 0, not
1 as the claim requires when every entity failed. -/
theorem allfail_exit_zero_cx :
    (run_risk_barometer envFail).length = 4 ∧
    (run_risk_barometer envFail).countP (fun kv => kv.2.isErr) = 4 ∧
    risk_barometer_exit envFail = 0 ∧ (0 : Nat) ≠ 1 := by
  refine ⟨rfl, ?_, rfl, by omega⟩
  simp +decide [run_risk_barometer, fetch_gold_barometer, fetch_sp500_barometer,
    fetch_nasdaq_barometer, fetch_bitcoin_barometer, classBaseline, envFail,
    Except.bind, bind, BarometerResult.isErr, List.countP_cons]

/-- C10: in every MA-deviation signal (gold 50-day, S&P 200-day, Nasdaq
200-day, Bitcoin 200-day), when `calculate_ma` returns `None` or a moving
average of exactly 0, the `if ma:` truthiness guard raises the
insufficient-history error instead of computing the percent deviation, so the
division by the moving average never divides by zero and the signal becomes
the insufficient-history fallback. -/
theorem ma_guard_no_div (gh : History) (cp : ℚ)
    (h50 : calculate_ma gh 50 = Except.ok Option.none ∨
      calculate_ma gh 50 = Except.ok (Option.some 0))
    (h200 : calculate_ma gh 200 = Except.ok Option.none ∨
      calculate_ma gh 200 = Except.ok (Option.some 0)) :
    (goldSignal3 gh cp = Except.error "Insufficient history for MA" ∧
      trySignal "MA Deviation" 15 (goldSignal3 gh cp) =
        (fallbackSignal "MA Deviation" 15 "Insufficient history for MA", 0)) ∧
    (sp500Signal3 gh cp = Except.error "Insufficient history" ∧
      trySignal "MA Deviation" 20 (sp500Signal3 gh cp) =
        (fallbackSignal "MA Deviation" 20 "Insufficient history", 0)) ∧
    (nasdaqSignal2 gh cp = Except.error "Insufficient history" ∧
      trySignal "MA Deviation" 25 (nasdaqSignal2 gh cp) =
        (fallbackSignal "MA Deviation" 25 "Insufficient history", 0)) ∧
    (btcSignal1 gh cp = Except.error "Insufficient history" ∧
      trySignal "MA Deviation" 30 (btcSignal1 gh cp) =
        (fallbackSignal "MA Deviation" 30 "Insufficient history", 0)) := by
  have hg : goldSignal3 gh cp = Except.error "Insufficient history for MA" := by
    unfold goldSignal3
    rcases h50 with h | h <;> rw [h] <;> simp [Bind.bind, Except.bind]
  have hs : sp500Signal3 gh cp = Except.error "Insufficient history" := by
    unfold sp500Signal3
    rcases h200 with h | h <;> rw [h] <;> simp [Bind.bind, Except.bind]
  have hn : nasdaqSignal2 gh cp = Except.error "Insufficient history" := by
    unfold nasdaqSignal2
    rcases h200 with h | h <;> rw [h] <;> simp [Bind.bind, Except.bind]
  have hb : btcSignal1 gh cp = Except.error "Insufficient history" := by
    unfold btcSignal1
    rcases h200 with h | h <;> rw [h] <;> simp [Bind.bind, Except.bind]
  exact ⟨⟨hg, by rw [hg]; rfl⟩, ⟨hs, by rw [hs]; rfl⟩, ⟨hn, by rw [hn]; rfl⟩,
    ⟨hb, by rw [hb]; rfl⟩⟩

/-- Witness for C10: on an empty history `calculate_ma` returns `None` and
every MA-deviation signal falls back. -/
theorem ma_guard_no_div_witness :
    goldSignal3 [] 0 = Except.error "Insufficient history for MA" ∧
    btcSignal1 [] 0 = Except.error "Insufficient history" := by
  have h := ma_guard_no_div [] 0 (Or.inl (by simp [calculate_ma]))
    (Or.inl (by simp [calculate_ma]))
  exact ⟨h.1.1, h.2.2.2.1⟩
